import Mathlib

/-!
Shallow embedding of the offline-first synchronization layer of the
utility-flow-tracker repository, together with theorems checking the
natural-language specification against it.

The embedding follows `src/lib/utilityService.ts` (the sync engine,
including `deleteAllEntries`; the copy in `src/lib/supabase.ts` is
line-for-line identical for the shared operations), the mapper pair in
`src/lib/supabase.ts`, the entry schema `UtilityEntrySchema`
(the variant with `paymentDate`/`paymentReference` and the fifteen-value
utility-type enumeration), and the CSV validation module
(`parseCSV`/`validateHeaders`/`validateRow`/`processCSV`).

Modelling conventions:
- `localStorage` becomes an explicit `LocalState` record threaded through
  each operation (`entries` under key `utility_entries`, `unsynced` under
  key `unsynced_utility_entries`).
- The Supabase client becomes a `RemoteOracle` of response functions; every
  remote round trip an operation performs is also recorded in a
  `calls : List RemoteCall` trace so that "no remote attempt" is statable.
- `new Date().toISOString()` and `Date.now()` become explicit parameters
  (`now1` for the stamp taken in `saveEntry`, `now2`/`nowMillis` for the
  one taken in `saveLocalEntry`).
- JavaScript string truthiness on optional strings (`!entry.id`,
  `entry.createdAt || now`) is modelled by `strFalsy`/`jsOr`: both
  `undefined` and `""` are falsy.
- JavaScript string primitives (`startsWith`, `split`, `trim`,
  `toLowerCase`) are re-implemented structurally over `String.data` so
  that concrete runs reduce inside the kernel.
- `parseFloat` (with its `isNaN` guard) and `date-fns` `parse` are
  platform primitives; they enter the CSV embedding as the abstract
  `CSVParsers` record.
-/

/-- JavaScript `s.startsWith(p)`. -/
def jsStartsWith (s p : String) : Bool :=
  p.data.isPrefixOf s.data

/-- Helper for splitting a character list at a separator character. -/
def splitCharAux (sep : Char) : List Char → List Char → List (List Char)
  | [], cur => [cur.reverse]
  | c :: rest, cur =>
    if c = sep then cur.reverse :: splitCharAux sep rest []
    else splitCharAux sep rest (c :: cur)

/-- JavaScript `s.split(sep)` for a one-character separator. -/
def splitChar (sep : Char) (s : String) : List String :=
  (splitCharAux sep s.data []).map (fun l => ⟨l⟩)

/-- JavaScript `s.toLowerCase()` (ASCII, which is all the CSV headers use). -/
def jsToLower (s : String) : String :=
  ⟨s.data.map Char.toLower⟩

/-- JavaScript `s.trim()`. -/
def jsTrim (s : String) : String :=
  ⟨((s.data.dropWhile Char.isWhitespace).reverse.dropWhile Char.isWhitespace).reverse⟩

/-- JavaScript truthiness test on an optional string: `undefined` and `""`
are falsy. -/
def strFalsy : Option String → Bool
  | none => true
  | some s => s == ""

/-- JavaScript `o || d` on an optional string. -/
def jsOr (o : Option String) (d : String) : String :=
  match o with
  | none => d
  | some s => if s = "" then d else s

/-- JavaScript `o?.startsWith('local-')` used as a condition: `undefined`
is falsy. -/
def optIsLocal : Option String → Bool
  | none => false
  | some s => jsStartsWith s "local-"

/-- Application entry model, from `UtilityEntrySchema`: the zod schema with
the fifteen-value utility-type enumeration and the optional payment fields.
Optional/nullable fields are `Option`s; `amount`/`reading` are rationals
(the code holds finite decimal numbers in them). -/
structure UtilityEntry where
  id : Option String
  utilityType : String
  supplier : String
  readingDate : String
  reading : Option Rat
  unit : Option String
  amount : Rat
  notes : Option String
  synced : Bool
  createdAt : Option String
  updatedAt : Option String
  paymentDate : Option String
  paymentReference : Option String
  deriving DecidableEq, Repr

/-- Remote (Supabase) row shape: the lowercase column names produced by
`mapToSupabaseModel`. -/
structure SupaRecord where
  id : Option String
  utilitytype : String
  supplier : String
  readingdate : String
  reading : Option Rat
  unit : Option String
  amount : Rat
  notes : Option String
  created_at : Option String
  updated_at : Option String
  deriving DecidableEq, Repr

/-- Embeds `mapToSupabaseModel` from `src/lib/supabase.ts`: the returned
object has exactly the ten listed columns, so `synced`, `paymentDate` and
`paymentReference` are dropped. -/
def mapToSupabaseModel (entry : UtilityEntry) : SupaRecord :=
  { id := entry.id
    utilitytype := entry.utilityType
    supplier := entry.supplier
    readingdate := entry.readingDate
    reading := entry.reading
    unit := entry.unit
    amount := entry.amount
    notes := entry.notes
    created_at := entry.createdAt
    updated_at := entry.updatedAt }

/-- Embeds `mapFromSupabaseModel` from `src/lib/supabase.ts`: the returned
object literal sets `synced: true` and has no `paymentDate` or
`paymentReference` keys, so those fields are `undefined` (`none`). -/
def mapFromSupabaseModel (record : SupaRecord) : UtilityEntry :=
  { id := record.id
    utilityType := record.utilitytype
    supplier := record.supplier
    readingDate := record.readingdate
    reading := record.reading
    unit := record.unit
    amount := record.amount
    notes := record.notes
    createdAt := record.created_at
    updatedAt := record.updated_at
    synced := true
    paymentDate := none
    paymentReference := none }

/-- The two persisted collections: `utility_entries` (the Local Cache
Store) and `unsynced_utility_entries` (the Unsynced Set). -/
structure LocalState where
  entries : List UtilityEntry
  unsynced : List UtilityEntry
  deriving DecidableEq, Repr

/-- One remote round trip, recorded in the call trace of each operation. -/
inductive RemoteCall where
  | fetch : RemoteCall
  | upsertRow : SupaRecord → RemoteCall
  | deleteRow : String → RemoteCall
  | deleteAllRows : RemoteCall
  deriving DecidableEq, Repr

/-- Responses of the remote store: `none`/`true`-error means the client
library reported an `error`, mirroring the `if (error)` checks. -/
structure RemoteOracle where
  fetchAll : Option (List SupaRecord)
  upsertRes : SupaRecord → Option SupaRecord
  deleteErr : String → Bool
  deleteAllErr : Bool

/-- Result of `getEntries`. -/
structure FetchOutcome where
  ret : List UtilityEntry
  st : LocalState
  calls : List RemoteCall
  deriving DecidableEq, Repr

/-- Result of `saveEntry` / `saveLocalEntry`. -/
structure SaveOutcome where
  ret : UtilityEntry
  st : LocalState
  calls : List RemoteCall
  deriving DecidableEq, Repr

/-- Result of `deleteEntry` / `deleteAllEntries`. -/
structure FlagOutcome where
  ok : Bool
  st : LocalState
  calls : List RemoteCall
  deriving DecidableEq, Repr

/-- Result of `syncUnsyncedEntries`. -/
structure CountOutcome where
  count : Nat
  st : LocalState
  calls : List RemoteCall
  deriving DecidableEq, Repr

/-- Embeds `getLocalEntries`. -/
def getLocalEntries (st : LocalState) : List UtilityEntry :=
  st.entries

/-- Embeds `getUnsyncedEntries`. -/
def getUnsyncedEntries (st : LocalState) : List UtilityEntry :=
  st.unsynced

/-- Embeds `getEntries`: online it fetches the full remote collection
(ordered by the remote query), on success overwrites the cache with the
mapped rows and returns them; on remote error or offline it returns the
cache unchanged. -/
def getEntries (online : Bool) (oracle : RemoteOracle) (st : LocalState) : FetchOutcome :=
  if online then
    match oracle.fetchAll with
    | none => ⟨getLocalEntries st, st, [RemoteCall.fetch]⟩
    | some data =>
      let mappedData := data.map mapFromSupabaseModel
      ⟨mappedData, { st with entries := mappedData }, [RemoteCall.fetch]⟩
  else ⟨getLocalEntries st, st, []⟩

/-- Embeds `saveLocalEntry`: generate a `local-${Date.now()}` placeholder
identifier (stamping `createdAt`) when the identifier is falsy, refresh
`updatedAt`, upsert into the cache, and, when the entry is not synced,
upsert into the Unsynced Set. -/
def saveLocalEntry (now : String) (nowMillis : Nat) (entry : UtilityEntry)
    (st : LocalState) : UtilityEntry × LocalState :=
  let e1 := if strFalsy entry.id then
      { entry with id := some ("local-" ++ toString nowMillis), createdAt := some now }
    else entry
  let e2 := { e1 with updatedAt := some now }
  let updatedEntries := st.entries.filter (fun e => decide (e.id ≠ e2.id)) ++ [e2]
  let updatedUnsynced :=
    if e2.synced then st.unsynced
    else st.unsynced.filter (fun e => decide (e.id ≠ e2.id)) ++ [e2]
  (e2, ⟨updatedEntries, updatedUnsynced⟩)

/-- The timestamp stamping done at the top of `saveEntry`:
`updatedAt: now, createdAt: entry.createdAt || now`. -/
def stampEntry (now : String) (entry : UtilityEntry) : UtilityEntry :=
  { entry with updatedAt := some now, createdAt := some (jsOr entry.createdAt now) }

/-- Embeds `saveEntry`: stamp timestamps; online, upsert the mapped record
remotely — on success mirror the mapped-back row into the cache (filtering
by the confirmed identifier), on error fall back to a local unsynced save;
offline, do the local unsynced save directly. -/
def saveEntry (online : Bool) (oracle : RemoteOracle) (now1 now2 : String)
    (nowMillis : Nat) (entry : UtilityEntry) (st : LocalState) : SaveOutcome :=
  let entryToSave := stampEntry now1 entry
  if online then
    let supabaseEntry := mapToSupabaseModel entryToSave
    match oracle.upsertRes supabaseEntry with
    | none =>
      let r := saveLocalEntry now2 nowMillis { entryToSave with synced := false } st
      ⟨r.1, r.2, [RemoteCall.upsertRow supabaseEntry]⟩
    | some data =>
      let savedEntry := mapFromSupabaseModel data
      let updatedEntries :=
        st.entries.filter (fun e => decide (e.id ≠ savedEntry.id)) ++ [savedEntry]
      ⟨savedEntry, { st with entries := updatedEntries }, [RemoteCall.upsertRow supabaseEntry]⟩
  else
    let r := saveLocalEntry now2 nowMillis { entryToSave with synced := false } st
    ⟨r.1, r.2, []⟩

/-- Embeds `deleteEntry`: online and for a non-`local-` identifier, issue
the remote delete and abort with `false` on error; in all other paths
remove the identifier from both collections and return `true`. -/
def deleteEntry (online : Bool) (oracle : RemoteOracle) (id : String)
    (st : LocalState) : FlagOutcome :=
  let removed : LocalState :=
    ⟨st.entries.filter (fun e => decide (e.id ≠ some id)),
     st.unsynced.filter (fun e => decide (e.id ≠ some id))⟩
  if online && !(jsStartsWith id "local-") then
    if oracle.deleteErr id then ⟨false, st, [RemoteCall.deleteRow id]⟩
    else ⟨true, removed, [RemoteCall.deleteRow id]⟩
  else ⟨true, removed, []⟩

/-- Embeds `deleteAllEntries` (from `utilityService.ts`): online, issue the
bulk remote delete and abort with `false` on error; otherwise clear both
collections and return `true`. -/
def deleteAllEntries (online : Bool) (oracle : RemoteOracle) (st : LocalState) : FlagOutcome :=
  if online then
    if oracle.deleteAllErr then ⟨false, st, [RemoteCall.deleteAllRows]⟩
    else ⟨true, ⟨[], []⟩, [RemoteCall.deleteAllRows]⟩
  else ⟨true, ⟨[], []⟩, []⟩

/-- The per-entry preparation inside the `syncUnsyncedEntries` loop: copy
the entry, `delete` a `local-`-prefixed identifier, set `synced = true`. -/
def prepForSync (entry : UtilityEntry) : UtilityEntry :=
  let entryToSync := if optIsLocal entry.id then { entry with id := none } else entry
  { entryToSync with synced := true }

/-- The `for (const entry of unsynced)` loop of `syncUnsyncedEntries`,
running over the snapshot taken at the start while threading the live
state: on upsert success the entry's identifier is removed from the
current Unsynced Set and cache and the mapped-back row is appended to the
cache; on error nothing changes and the loop continues. -/
def syncLoop (oracle : RemoteOracle) : List UtilityEntry → LocalState → CountOutcome
  | [], st => ⟨0, st, []⟩
  | entry :: rest, st =>
    let supabaseEntry := mapToSupabaseModel (prepForSync entry)
    match oracle.upsertRes supabaseEntry with
    | none =>
      let r := syncLoop oracle rest st
      ⟨r.count, r.st, RemoteCall.upsertRow supabaseEntry :: r.calls⟩
    | some data =>
      let syncedEntry := mapFromSupabaseModel data
      let remaining := st.unsynced.filter (fun e => decide (e.id ≠ entry.id))
      let updatedEntries :=
        st.entries.filter (fun e => decide (e.id ≠ entry.id)) ++ [syncedEntry]
      let r := syncLoop oracle rest ⟨updatedEntries, remaining⟩
      ⟨r.count + 1, r.st, RemoteCall.upsertRow supabaseEntry :: r.calls⟩

/-- Embeds `syncUnsyncedEntries`: return 0 immediately when offline or
when the Unsynced Set is empty, otherwise drain the snapshot. -/
def syncUnsyncedEntries (online : Bool) (oracle : RemoteOracle) (st : LocalState) : CountOutcome :=
  if !online then ⟨0, st, []⟩
  else if st.unsynced.length = 0 then ⟨0, st, []⟩
  else syncLoop oracle st.unsynced st

/-- Whether the remote upsert attempt that `syncUnsyncedEntries` makes for
a pending entry comes back as an error. -/
def syncAttemptFails (oracle : RemoteOracle) (e : UtilityEntry) : Bool :=
  (oracle.upsertRes (mapToSupabaseModel (prepForSync e))).isNone

/-- Expected CSV headers, from the CSV import module. -/
def EXPECTED_HEADERS : List String :=
  ["utilitytype", "supplier", "readingdate", "reading", "unit", "amount", "notes"]

/-- The valid utility types checked by `validateRow`. -/
def validUtilityTypes : List String :=
  ["electricity", "water", "gas", "internet", "heat", "hot_water", "cold_water",
   "phone", "housing_service", "renovation", "loan", "interest", "insurance",
   "waste", "other"]

/-- One row/field-addressable validation error. -/
structure ValidationError where
  rowIndex : Nat
  field : String
  message : String
  deriving DecidableEq, Repr

/-- A parsed CSV row: the JavaScript object built by `parseCSV`, as an
insertion-ordered association list with string keys (a missing key reads
as the falsy `""`, matching `undefined`). -/
abbrev CSVRow := List (String × String)

/-- JavaScript property read `row[k]` with `undefined` collapsed to `""`
(both are falsy and behave identically in `validateRow`). -/
def getField (row : CSVRow) (k : String) : String :=
  match row.find? (fun p => p.1 == k) with
  | some p => p.2
  | none => ""

/-- JavaScript property assignment `row[k] = v`: overwrite in place if the
key exists, else append. -/
def setKV (row : CSVRow) (k v : String) : CSVRow :=
  if row.any (fun p => p.1 == k) then
    row.map (fun p => if p.1 == k then (k, v) else p)
  else row ++ [(k, v)]

/-- The partially-built `Partial<UtilityEntry>` that `validateRow`
assembles; an inner `none` models an explicit `null`. -/
structure CSVEntry where
  utilityType : Option String
  supplier : Option String
  readingDate : Option String
  reading : Option (Option Rat)
  unit : Option (Option String)
  amount : Option Rat
  notes : Option (Option String)
  deriving DecidableEq, Repr

/-- The empty `Partial<UtilityEntry>` `validateRow` starts from. -/
def emptyCSVEntry : CSVEntry :=
  ⟨none, none, none, none, none, none, none⟩

/-- Result of `validateRow`. -/
structure ValidatedEntry where
  entry : CSVEntry
  errors : List ValidationError
  rowIndex : Nat
  rawData : CSVRow
  deriving DecidableEq, Repr

/-- Platform parsing primitives used by `validateRow`: `parseFloat` with
its `isNaN` guard (returns `none` on NaN) and the date-fns
`parse(_, "yyyy-MM-dd", _)` validity check. -/
structure CSVParsers where
  parseNum : String → Option Rat
  dateOk : String → Bool

/-- JavaScript `content.split(/\r?\n/)`: split at every `"\n"` and strip
one `"\r"` left at the end of a piece. -/
def splitLines (content : String) : List String :=
  (splitChar '\n' content).map
    (fun l => if l.data.getLast? = some '\r' then ⟨l.data.dropLast⟩ else l)

/-- Embeds `parseCSV`: drop blank lines, lowercase/trim the first line into
headers, and build each remaining line into a row object keyed by header
position (`values[index] || ""`). The empty-file `throw` becomes
`Except.error`. -/
def parseCSV (content : String) : Except String (List String × List CSVRow) :=
  match (splitLines content).filter (fun l => decide (jsTrim l ≠ "")) with
  | [] => Except.error "CSV file is empty"
  | firstLine :: rest =>
    let headers := (splitChar ',' firstLine).map (fun h => jsToLower (jsTrim h))
    let rows := rest.map (fun line =>
      let values := (splitChar ',' line).map jsTrim
      headers.enum.foldl (fun row p => setKV row p.2 (values.getD p.1 "")) [])
    Except.ok (headers, rows)

/-- Embeds `validateHeaders`: the expected headers that are missing. -/
def validateHeaders (headers : List String) : List String :=
  EXPECTED_HEADERS.filter (fun h => !(headers.contains h))

/-- Errors pushed by the utility-type block of `validateRow`. -/
def utErrors (row : CSVRow) (rowIndex : Nat) : List ValidationError :=
  if getField row "utilitytype" = "" then
    [⟨rowIndex, "utilitytype", "Utility type is required"⟩]
  else if validUtilityTypes.contains (getField row "utilitytype") then []
  else [⟨rowIndex, "utilitytype", "Invalid utility type: " ++ getField row "utilitytype"⟩]

/-- Errors pushed by the supplier block of `validateRow`. -/
def supErrors (row : CSVRow) (rowIndex : Nat) : List ValidationError :=
  if getField row "supplier" = "" then
    [⟨rowIndex, "supplier", "Supplier is required"⟩]
  else []

/-- Errors pushed by the reading-date block of `validateRow`. -/
def dateErrors (P : CSVParsers) (row : CSVRow) (rowIndex : Nat) : List ValidationError :=
  if getField row "readingdate" = "" then
    [⟨rowIndex, "readingdate", "Reading date is required"⟩]
  else if P.dateOk (getField row "readingdate") then []
  else [⟨rowIndex, "readingdate", "Invalid date format. Use YYYY-MM-DD"⟩]

/-- Errors pushed by the reading block of `validateRow`. -/
def readingErrors (P : CSVParsers) (row : CSVRow) (rowIndex : Nat) : List ValidationError :=
  if getField row "reading" = "" then []
  else match P.parseNum (getField row "reading") with
    | none => [⟨rowIndex, "reading", "Reading must be a number"⟩]
    | some _ => []

/-- Errors pushed by the amount block of `validateRow`. -/
def amountErrors (P : CSVParsers) (row : CSVRow) (rowIndex : Nat) : List ValidationError :=
  if getField row "amount" = "" then
    [⟨rowIndex, "amount", "Amount is required"⟩]
  else match P.parseNum (getField row "amount") with
    | none => [⟨rowIndex, "amount", "Amount must be a number"⟩]
    | some v =>
      if v < 0 then [⟨rowIndex, "amount", "Amount must be positive"⟩] else []

/-- Embeds `validateRow`: the errors array receives the per-field error
pushes in source order, and the partial entry receives exactly the field
assignments made on the non-failing branches (`reading`/`unit`/`notes`
defaulting to `null`). -/
def validateRow (P : CSVParsers) (row : CSVRow) (rowIndex : Nat) : ValidatedEntry :=
  let errors := utErrors row rowIndex ++ supErrors row rowIndex
    ++ dateErrors P row rowIndex ++ readingErrors P row rowIndex
    ++ amountErrors P row rowIndex
  let entry : CSVEntry :=
    { utilityType :=
        if getField row "utilitytype" ≠ ""
            ∧ validUtilityTypes.contains (getField row "utilitytype") then
          some (getField row "utilitytype")
        else none
      supplier :=
        if getField row "supplier" = "" then none else some (getField row "supplier")
      readingDate :=
        if getField row "readingdate" ≠ "" ∧ P.dateOk (getField row "readingdate") then
          some (getField row "readingdate")
        else none
      reading :=
        if getField row "reading" = "" then some none
        else match P.parseNum (getField row "reading") with
          | none => none
          | some v => some (some v)
      unit :=
        some (if getField row "unit" = "" then none else some (getField row "unit"))
      amount :=
        if getField row "amount" = "" then none
        else match P.parseNum (getField row "amount") with
          | none => none
          | some v => if v < 0 then none else some v
      notes :=
        some (if getField row "notes" = "" then none else some (getField row "notes")) }
  ⟨entry, errors, rowIndex, row⟩

/-- Embeds `processCSV`: parse, validate headers, and when the headers are
complete validate every row independently in order. -/
def processCSV (P : CSVParsers) (content : String) :
    Except String (List ValidatedEntry × List String) :=
  match parseCSV content with
  | Except.error e => Except.error e
  | Except.ok (headers, rows) =>
    let headerErrors := validateHeaders headers
    if headerErrors.length > 0 then Except.ok ([], headerErrors)
    else Except.ok (rows.enum.map (fun p => validateRow P p.2 p.1), [])

/-- Spec-side characterization: the utility-type field of a row fails
validation (empty or not in the enumeration). -/
def utFails (row : CSVRow) : Bool :=
  getField row "utilitytype" == ""
    || !(validUtilityTypes.contains (getField row "utilitytype"))

/-- Spec-side characterization: the supplier field fails (empty). -/
def supFails (row : CSVRow) : Bool :=
  getField row "supplier" == ""

/-- Spec-side characterization: the reading-date field fails (empty or not
parseable). -/
def dateFails (P : CSVParsers) (row : CSVRow) : Bool :=
  getField row "readingdate" == "" || !(P.dateOk (getField row "readingdate"))

/-- Spec-side characterization: the optional reading field fails (present
but not numeric). -/
def readingFails (P : CSVParsers) (row : CSVRow) : Bool :=
  getField row "reading" != "" && (P.parseNum (getField row "reading")).isNone

/-- Spec-side characterization: the amount field fails (missing,
non-numeric, or negative). -/
def amountFails (P : CSVParsers) (row : CSVRow) : Bool :=
  getField row "amount" == ""
    || (match P.parseNum (getField row "amount") with
        | none => true
        | some v => decide (v < 0))

/-! ### Concrete fixtures used by witnesses and counterexamples -/

/-- The rational 42.5, written in normal form so concrete runs reduce in
the kernel. -/
def amount42p5 : Rat := ⟨85, 2, by decide, by decide⟩

/-- A concrete server-identified entry. -/
def entryA : UtilityEntry :=
  { id := some "a1", utilityType := "electricity", supplier := "Acme",
    readingDate := "2024-01-15", reading := none, unit := none, amount := amount42p5,
    notes := none, synced := false, createdAt := some "2024-01-01T00:00:00Z",
    updatedAt := some "2024-01-01T00:00:00Z", paymentDate := none,
    paymentReference := none }

/-- A second concrete entry with a distinct identifier. -/
def entryB : UtilityEntry :=
  { entryA with id := some "b2", supplier := "Bay" }

/-- A concrete state holding both entries in both collections. -/
def stAB : LocalState :=
  ⟨[entryA, entryB], [entryA, entryB]⟩

/-- A remote oracle that accepts every request and echoes upserted rows. -/
def echoOracle : RemoteOracle :=
  { fetchAll := some [mapToSupabaseModel entryA]
    upsertRes := fun r => some r
    deleteErr := fun _ => false
    deleteAllErr := false }

/-- A remote oracle on which every request errors. -/
def failingOracle : RemoteOracle :=
  { fetchAll := none
    upsertRes := fun _ => none
    deleteErr := fun _ => true
    deleteAllErr := true }

/-- A remote oracle whose upsert errors exactly on supplier `"Bay"` rows. -/
def mixedOracle : RemoteOracle :=
  { fetchAll := none
    upsertRes := fun r => if r.supplier == "Bay" then none else some r
    deleteErr := fun _ => false
    deleteAllErr := false }

/-! ### Helper lemmas -/

/-- A generated `"local-" ++ suffix` identifier carries the reserved
local-only marker. -/
theorem jsStartsWith_local (m : String) :
    jsStartsWith ("local-" ++ m) "local-" = true := by
  simp [jsStartsWith, String.data_append, List.isPrefixOf_iff_prefix]

/-! ### C4 — mapper round trip -/

/-- An entry carrying a payment date, used to refute the round-trip claim. -/
def entryPay : UtilityEntry :=
  { entryA with paymentDate := some "2024-02-01", paymentReference := some "ref-9" }

/-- C4 counterexample: `fromRemote(toRemote(e))` does not reproduce every
field of `e` except `synced`: on an entry with a payment date the round
trip loses `paymentDate` (and `paymentReference`), since
`mapToSupabaseModel` has no columns for them. -/
theorem c4_roundtrip_cex :
    mapFromSupabaseModel (mapToSupabaseModel entryPay) ≠ { entryPay with synced := true } := by
  decide

/-- C4 (amended): the round trip reproduces the ten mapped fields, forces
`synced := true`, and drops `paymentDate` and `paymentReference` (they come
back absent). -/
theorem c4_roundtrip :
    ∀ e : UtilityEntry,
      mapFromSupabaseModel (mapToSupabaseModel e)
        = { e with synced := true, paymentDate := none, paymentReference := none } := by
  intro e
  rfl

/-! ### C3 — deleteEntry aborts atomically on remote error -/

/-- C3: for a non-local identifier, an online `deleteEntry` whose remote
delete errors returns `false` and leaves both the Local Cache Store and the
Unsynced Set exactly as they were (it performs only the one remote call). -/
theorem c3_delete_remote_error (oracle : RemoteOracle) (st : LocalState) (id : String)
    (hlocal : jsStartsWith id "local-" = false)
    (herr : oracle.deleteErr id = true) :
    deleteEntry true oracle id st = ⟨false, st, [RemoteCall.deleteRow id]⟩ := by
  simp [deleteEntry, hlocal, herr]

/-- C3 witness: concrete run on identifier `"a1"` with an erroring remote. -/
theorem c3_delete_remote_error_witness :
    jsStartsWith "a1" "local-" = false ∧ failingOracle.deleteErr "a1" = true ∧
      deleteEntry true failingOracle "a1" stAB = ⟨false, stAB, [RemoteCall.deleteRow "a1"]⟩ :=
  ⟨by decide, by decide, c3_delete_remote_error failingOracle stAB "a1" (by decide) (by decide)⟩

/-! ### C7 — deleteAllEntries -/

/-- C7: online with an erroring bulk delete, `deleteAllEntries` returns
`false` and mutates nothing; on remote success it clears both collections
and returns `true`; offline it clears both collections and returns `true`
without any remote call. -/
theorem c7_deleteAll (online : Bool) (oracle : RemoteOracle) (st : LocalState) :
    (online = true → oracle.deleteAllErr = true →
        deleteAllEntries online oracle st = ⟨false, st, [RemoteCall.deleteAllRows]⟩)
    ∧ (online = true → oracle.deleteAllErr = false →
        deleteAllEntries online oracle st = ⟨true, ⟨[], []⟩, [RemoteCall.deleteAllRows]⟩)
    ∧ (online = false →
        deleteAllEntries online oracle st = ⟨true, ⟨[], []⟩, []⟩) := by
  refine ⟨?_, ?_, ?_⟩ <;> intro h <;> subst h <;>
    first
      | (intro herr; simp [deleteAllEntries, herr])
      | simp [deleteAllEntries]

/-- C7 witness: the error path on an erroring oracle, the success path on
an accepting oracle, and the offline path, all on a concrete state. -/
theorem c7_deleteAll_witness :
    failingOracle.deleteAllErr = true ∧
      deleteAllEntries true failingOracle stAB = ⟨false, stAB, [RemoteCall.deleteAllRows]⟩ ∧
      deleteAllEntries true echoOracle stAB = ⟨true, ⟨[], []⟩, [RemoteCall.deleteAllRows]⟩ ∧
      deleteAllEntries false failingOracle stAB = ⟨true, ⟨[], []⟩, []⟩ :=
  ⟨by decide, (c7_deleteAll true failingOracle stAB).1 rfl (by decide),
    (c7_deleteAll true echoOracle stAB).2.1 rfl (by decide),
    (c7_deleteAll false failingOracle stAB).2.2 rfl⟩

/-! ### C6 — getEntries -/

/-- C6: online with a successful fetch, `getEntries` overwrites the cache
wholesale with the mapped remote rows, returns them, and leaves the
Unsynced Set untouched; mapping preserves the remote's
reading-date-descending order; on remote error or offline it returns the
cache unchanged (and the Unsynced Set is never modified). -/
theorem c6_getEntries (oracle : RemoteOracle) (st : LocalState) :
    (oracle.fetchAll = none →
        getEntries true oracle st = ⟨st.entries, st, [RemoteCall.fetch]⟩)
    ∧ getEntries false oracle st = ⟨st.entries, st, []⟩
    ∧ (∀ data, oracle.fetchAll = some data →
        getEntries true oracle st
            = ⟨data.map mapFromSupabaseModel,
               ⟨data.map mapFromSupabaseModel, st.unsynced⟩, [RemoteCall.fetch]⟩
          ∧ (List.Pairwise (fun a b => b.readingdate ≤ a.readingdate) data →
              List.Pairwise (fun a b => b.readingDate ≤ a.readingDate)
                (data.map mapFromSupabaseModel))) := by
  refine ⟨?_, ?_, ?_⟩
  · intro h
    simp [getEntries, h, getLocalEntries]
  · simp [getEntries, getLocalEntries]
  · intro data h
    refine ⟨?_, ?_⟩
    · simp only [getEntries, h, if_true]
    · intro hs
      rw [List.pairwise_map]
      exact hs

/-- C6 witness: a concrete erroring fetch, a concrete offline read, and a
concrete successful fetch of a singleton (trivially ordered) collection. -/
theorem c6_getEntries_witness :
    failingOracle.fetchAll = none ∧
      getEntries true failingOracle stAB = ⟨stAB.entries, stAB, [RemoteCall.fetch]⟩ ∧
      getEntries false failingOracle stAB = ⟨stAB.entries, stAB, []⟩ ∧
      echoOracle.fetchAll = some [mapToSupabaseModel entryA] ∧
      getEntries true echoOracle stAB
        = ⟨[mapToSupabaseModel entryA].map mapFromSupabaseModel,
           ⟨[mapToSupabaseModel entryA].map mapFromSupabaseModel, stAB.unsynced⟩,
           [RemoteCall.fetch]⟩ ∧
      List.Pairwise (fun a b => b.readingDate ≤ a.readingDate)
        ([mapToSupabaseModel entryA].map mapFromSupabaseModel) :=
  ⟨rfl, (c6_getEntries failingOracle stAB).1 rfl,
    (c6_getEntries failingOracle stAB).2.1, rfl,
    ((c6_getEntries echoOracle stAB).2.2 [mapToSupabaseModel entryA] rfl).1,
    ((c6_getEntries echoOracle stAB).2.2 [mapToSupabaseModel entryA] rfl).2
      (List.pairwise_singleton _ _)⟩

/-! ### C5 — offline save -/

/-- C5: an offline `saveEntry` returns an entry with `synced = false`,
makes no remote call, generates a `"local-"`-prefixed placeholder
identifier when the identifier was absent, and upserts the returned entry
by its identifier into both the Local Cache Store and the Unsynced Set
(replacing any prior copy). -/
theorem c5_offline_save (oracle : RemoteOracle) (st : LocalState)
    (entry : UtilityEntry) (now1 now2 : String) (nowMillis : Nat) :
    (saveEntry false oracle now1 now2 nowMillis entry st).ret.synced = false
    ∧ (saveEntry false oracle now1 now2 nowMillis entry st).calls = []
    ∧ (strFalsy entry.id = true →
        (saveEntry false oracle now1 now2 nowMillis entry st).ret.id
            = some ("local-" ++ toString nowMillis)
          ∧ jsStartsWith ("local-" ++ toString nowMillis) "local-" = true)
    ∧ (saveEntry false oracle now1 now2 nowMillis entry st).st.entries
        = st.entries.filter
            (fun e => decide (e.id ≠ (saveEntry false oracle now1 now2 nowMillis entry st).ret.id))
          ++ [(saveEntry false oracle now1 now2 nowMillis entry st).ret]
    ∧ (saveEntry false oracle now1 now2 nowMillis entry st).st.unsynced
        = st.unsynced.filter
            (fun e => decide (e.id ≠ (saveEntry false oracle now1 now2 nowMillis entry st).ret.id))
          ++ [(saveEntry false oracle now1 now2 nowMillis entry st).ret] := by
  by_cases h : strFalsy entry.id = true
  · refine ⟨?_, ?_, ?_, ?_, ?_⟩ <;>
      simp [saveEntry, saveLocalEntry, stampEntry, h, jsStartsWith_local]
  · refine ⟨?_, ?_, ?_, ?_, ?_⟩ <;>
      simp [saveEntry, saveLocalEntry, stampEntry, h, strFalsy] at h ⊢ <;>
      simp [h]

/-- C5 witness: the spec's scenario entry
`{utilityType: "electricity", supplier: "Acme", readingDate: "2024-01-15",
amount: 42.5}` saved offline with no identifier. -/
def entryNew : UtilityEntry :=
  { id := none, utilityType := "electricity", supplier := "Acme",
    readingDate := "2024-01-15", reading := none, unit := none,
    amount := amount42p5, notes := none, synced := false, createdAt := none,
    updatedAt := none, paymentDate := none, paymentReference := none }

/-- C5 witness: concrete offline save of `entryNew` at time 1700. -/
theorem c5_offline_save_witness :
    strFalsy entryNew.id = true ∧
      ((saveEntry false failingOracle "2024-05-05T00:00:00Z" "2024-05-05T00:00:00Z" 1700
            entryNew stAB).ret.synced = false
        ∧ (saveEntry false failingOracle "2024-05-05T00:00:00Z" "2024-05-05T00:00:00Z" 1700
            entryNew stAB).ret.id = some ("local-" ++ toString 1700)) :=
  ⟨by decide,
    (c5_offline_save failingOracle stAB entryNew "2024-05-05T00:00:00Z"
        "2024-05-05T00:00:00Z" 1700).1,
    ((c5_offline_save failingOracle stAB entryNew "2024-05-05T00:00:00Z"
        "2024-05-05T00:00:00Z" 1700).2.2.1 (by decide)).1⟩

/-! ### C2 — online save mirrors the confirmed entry into the cache -/

/-- C2: when an online `saveEntry` upsert succeeds and the remote honours
the upsert-by-identifier contract (the stored row keeps a sent identifier),
the confirmed entry is mirrored into the Local Cache Store after removing
the prior record with its identifier, the Unsynced Set is untouched, the
cache ends up with exactly one representation of the entry, and no record
under the entry's previous identifier other than the confirmed one
remains. -/
theorem c2_save_online_mirrors (oracle : RemoteOracle) (st : LocalState)
    (entry : UtilityEntry) (now1 now2 : String) (nowMillis : Nat) (data : SupaRecord)
    (hEcho : ∀ i, entry.id = some i → data.id = some i)
    (hup : oracle.upsertRes (mapToSupabaseModel (stampEntry now1 entry)) = some data) :
    (saveEntry true oracle now1 now2 nowMillis entry st).ret = mapFromSupabaseModel data
    ∧ (saveEntry true oracle now1 now2 nowMillis entry st).st.unsynced = st.unsynced
    ∧ (saveEntry true oracle now1 now2 nowMillis entry st).st.entries
        = st.entries.filter (fun e => decide (e.id ≠ (mapFromSupabaseModel data).id))
          ++ [mapFromSupabaseModel data]
    ∧ (saveEntry true oracle now1 now2 nowMillis entry st).st.entries.filter
          (fun e => decide (e.id = (mapFromSupabaseModel data).id))
        = [mapFromSupabaseModel data]
    ∧ (∀ i, entry.id = some i →
        ∀ x ∈ (saveEntry true oracle now1 now2 nowMillis entry st).st.entries,
          x.id = some i → x = mapFromSupabaseModel data) := by
  have hsave : saveEntry true oracle now1 now2 nowMillis entry st
      = ⟨mapFromSupabaseModel data,
         ⟨st.entries.filter (fun e => decide (e.id ≠ (mapFromSupabaseModel data).id))
           ++ [mapFromSupabaseModel data], st.unsynced⟩,
         [RemoteCall.upsertRow (mapToSupabaseModel (stampEntry now1 entry))]⟩ := by
    simp [saveEntry, hup]
  refine ⟨by rw [hsave], by rw [hsave], by rw [hsave], ?_, ?_⟩
  · rw [hsave]
    rw [List.filter_append, List.filter_filter]
    simp
  · intro i hi x hx hxid
    rw [hsave] at hx
    simp only [List.mem_append, List.mem_filter, List.mem_singleton] at hx
    rcases hx with ⟨_, hne⟩ | he
    · exfalso
      have hdid : (mapFromSupabaseModel data).id = some i := hEcho i hi
      simp [hxid, hdid] at hne
    · exact he

/-- The concrete stored row the echoing oracle returns for an online save
of `entryA` at the witness timestamp. -/
def dataA : SupaRecord := mapToSupabaseModel (stampEntry "2024-05-05T00:00:00Z" entryA)

/-- C2 witness: concrete online save of `entryA` against the echoing
oracle. -/
theorem c2_save_online_mirrors_witness :
    echoOracle.upsertRes (mapToSupabaseModel (stampEntry "2024-05-05T00:00:00Z" entryA))
        = some dataA
    ∧ (saveEntry true echoOracle "2024-05-05T00:00:00Z" "2024-05-05T00:00:00Z" 1700
          entryA stAB).ret = mapFromSupabaseModel dataA
    ∧ (saveEntry true echoOracle "2024-05-05T00:00:00Z" "2024-05-05T00:00:00Z" 1700
          entryA stAB).st.entries.filter
          (fun e => decide (e.id = (mapFromSupabaseModel dataA).id))
        = [mapFromSupabaseModel dataA] :=
  ⟨rfl,
    (c2_save_online_mirrors echoOracle stAB entryA "2024-05-05T00:00:00Z"
        "2024-05-05T00:00:00Z" 1700 dataA
        (fun i h => by rw [show dataA.id = entryA.id from rfl]; exact h) rfl).1,
    (c2_save_online_mirrors echoOracle stAB entryA "2024-05-05T00:00:00Z"
        "2024-05-05T00:00:00Z" 1700 dataA
        (fun i h => by rw [show dataA.id = entryA.id from rfl]; exact h) rfl).2.2.2.1⟩

/-! ### C8 — timestamp stamping (corrected) -/

/-- An identifier-less entry that already carries a creation timestamp,
used to refute the createdAt-preservation claim. -/
def entryOld : UtilityEntry :=
  { entryNew with createdAt := some "2020-01-01T00:00:00Z" }

/-- C8 counterexample: an entry that already carries a `createdAt` but has
no identifier loses that original value on an offline save —
`saveLocalEntry` restamps `createdAt` whenever it generates a placeholder
identifier. -/
theorem c8_timestamps_cex :
    entryOld.createdAt = some "2020-01-01T00:00:00Z"
    ∧ (saveEntry false failingOracle "2024-05-05T00:00:00Z" "2024-05-05T00:00:00Z" 1700
          entryOld stAB).ret.createdAt = some "2024-05-05T00:00:00Z"
    ∧ (saveEntry false failingOracle "2024-05-05T00:00:00Z" "2024-05-05T00:00:00Z" 1700
          entryOld stAB).ret.createdAt ≠ entryOld.createdAt := by
  refine ⟨rfl, by decide, by decide⟩

/-- C8 (amended): `updatedAt` is refreshed to the save time on every path;
`createdAt` keeps a carried (non-falsy) value on the online-success path
(under the stored-row timestamp contract) and on every local path for an
entry that has an identifier, but on the local paths an entry without an
identifier gets `createdAt` restamped to the save time even when it
already carried one. -/
theorem c8_timestamps (oracle : RemoteOracle) (st : LocalState)
    (entry : UtilityEntry) (now1 now2 : String) (nowMillis : Nat) :
    ((saveEntry false oracle now1 now2 nowMillis entry st).ret.updatedAt = some now2
      ∧ (strFalsy entry.id = false →
          (saveEntry false oracle now1 now2 nowMillis entry st).ret.createdAt
            = some (jsOr entry.createdAt now1))
      ∧ (strFalsy entry.id = true →
          (saveEntry false oracle now1 now2 nowMillis entry st).ret.createdAt = some now2))
    ∧ (∀ data,
        oracle.upsertRes (mapToSupabaseModel (stampEntry now1 entry)) = some data →
        data.updated_at = (mapToSupabaseModel (stampEntry now1 entry)).updated_at →
        data.created_at = (mapToSupabaseModel (stampEntry now1 entry)).created_at →
          (saveEntry true oracle now1 now2 nowMillis entry st).ret.updatedAt = some now1
          ∧ (saveEntry true oracle now1 now2 nowMillis entry st).ret.createdAt
              = some (jsOr entry.createdAt now1))
    ∧ (oracle.upsertRes (mapToSupabaseModel (stampEntry now1 entry)) = none →
        (saveEntry true oracle now1 now2 nowMillis entry st).ret.updatedAt = some now2
        ∧ (strFalsy entry.id = false →
            (saveEntry true oracle now1 now2 nowMillis entry st).ret.createdAt
              = some (jsOr entry.createdAt now1))
        ∧ (strFalsy entry.id = true →
            (saveEntry true oracle now1 now2 nowMillis entry st).ret.createdAt = some now2))
    ∧ (∀ s, entry.createdAt = some s → s ≠ "" → jsOr entry.createdAt now1 = s) := by
  refine ⟨⟨?_, ?_, ?_⟩, ?_, ?_, ?_⟩
  · by_cases h : strFalsy entry.id = true <;>
      simp [saveEntry, saveLocalEntry, stampEntry, h]
  · intro h
    simp [saveEntry, saveLocalEntry, stampEntry, h]
  · intro h
    simp [saveEntry, saveLocalEntry, stampEntry, h]
  · intro data hup hu hc
    simp only [saveEntry]
    rw [hup]
    simp only [mapToSupabaseModel, stampEntry] at hu hc
    simp [mapFromSupabaseModel, hu, hc]
  · intro hup
    refine ⟨?_, ?_, ?_⟩
    · simp only [saveEntry]
      rw [hup]
      by_cases h : strFalsy entry.id = true <;>
        simp [saveLocalEntry, stampEntry, h]
    · intro h
      simp only [saveEntry]
      rw [hup]
      simp [saveLocalEntry, stampEntry, h]
    · intro h
      simp only [saveEntry]
      rw [hup]
      simp [saveLocalEntry, stampEntry, h]
  · intro s hs hne
    simp [jsOr, hs, hne]

/-! ### Sync-loop invariants -/

/-- The success counter of the drain loop counts exactly the entries whose
remote upsert attempt succeeds, independent of the threaded state. -/
theorem syncLoop_count (oracle : RemoteOracle) (l : List UtilityEntry) (st : LocalState) :
    (syncLoop oracle l st).count
      = (l.filter (fun e => !(syncAttemptFails oracle e))).length := by
  induction l generalizing st with
  | nil => simp [syncLoop]
  | cons e rest ih =>
    rcases h : oracle.upsertRes (mapToSupabaseModel (prepForSync e)) with _ | data <;>
      simp [syncLoop, h, syncAttemptFails, List.filter_cons, ih]

/-- The drain loop performs one remote call per pending entry: no failure
aborts the processing of the remaining entries. -/
theorem syncLoop_calls_len (oracle : RemoteOracle) (l : List UtilityEntry) (st : LocalState) :
    (syncLoop oracle l st).calls.length = l.length := by
  induction l generalizing st with
  | nil => simp [syncLoop]
  | cons e rest ih =>
    rcases h : oracle.upsertRes (mapToSupabaseModel (prepForSync e)) with _ | data <;>
      simp [syncLoop, h, ih]

/-- Every remote call the drain loop makes is an upsert (never a delete or
a fetch). -/
theorem syncLoop_calls_upserts (oracle : RemoteOracle) (l : List UtilityEntry)
    (st : LocalState) :
    ∀ c ∈ (syncLoop oracle l st).calls, ∃ r, c = RemoteCall.upsertRow r := by
  induction l generalizing st with
  | nil => simp [syncLoop]
  | cons e rest ih =>
    rcases h : oracle.upsertRes (mapToSupabaseModel (prepForSync e)) with _ | data <;>
      · intro c hc
        simp only [syncLoop, h, List.mem_cons] at hc
        rcases hc with hc | hc
        · exact ⟨_, hc⟩
        · exact ih _ c hc

/-- After the drain loop, the Unsynced Set equals the starting set with
the identifiers of the successfully-synced snapshot entries filtered out. -/
theorem syncLoop_unsynced (oracle : RemoteOracle) (l : List UtilityEntry) (st : LocalState) :
    (syncLoop oracle l st).st.unsynced
      = st.unsynced.filter (fun x =>
          decide (x.id ∉ (l.filter (fun e => !(syncAttemptFails oracle e))).map
            (fun e => e.id))) := by
  induction l generalizing st with
  | nil => simp [syncLoop]
  | cons e rest ih =>
    rcases h : oracle.upsertRes (mapToSupabaseModel (prepForSync e)) with _ | data
    · have hf : syncAttemptFails oracle e = true := by simp [syncAttemptFails, h]
      simp [syncLoop, h, ih, List.filter_cons, hf]
    · have hf : syncAttemptFails oracle e = false := by simp [syncAttemptFails, h]
      simp only [syncLoop, h, ih, List.filter_cons, hf, Bool.not_false, if_true]
      rw [List.filter_filter]
      refine List.filter_congr ?_
      intro x _
      simp only [List.map_cons, List.mem_cons, not_or, Bool.decide_and,
        decide_not]
      cases hx : decide (x.id = e.id) <;> cases hy : decide (x.id ∈ (rest.filter
          (fun e => !(syncAttemptFails oracle e))).map (fun e => e.id)) <;>
        simp_all

/-! ### C1 — syncUnsyncedEntries -/

/-- C1: with a pairwise-distinct-identifier Unsynced Set of N entries of
which M fail at the remote upsert, `syncUnsyncedEntries` run online returns
N − M, afterwards the Unsynced Set consists exactly of the M failing
entries (untouched, in order — every success is removed), one remote
attempt is made per pending entry (no failure aborts the batch), and the
call returns 0 with no remote attempt when offline or when the Unsynced
Set is empty. -/
theorem c1_sync (oracle : RemoteOracle) (st : LocalState)
    (hids : (st.unsynced.map (fun e => e.id)).Nodup) :
    (syncUnsyncedEntries true oracle st).count
        = st.unsynced.length - (st.unsynced.filter (syncAttemptFails oracle)).length
    ∧ (syncUnsyncedEntries true oracle st).st.unsynced
        = st.unsynced.filter (syncAttemptFails oracle)
    ∧ (syncUnsyncedEntries true oracle st).calls.length = st.unsynced.length
    ∧ syncUnsyncedEntries false oracle st = ⟨0, st, []⟩
    ∧ (st.unsynced = [] → syncUnsyncedEntries true oracle st = ⟨0, st, []⟩) := by
  by_cases hnil : st.unsynced = []
  · refine ⟨?_, ?_, ?_, ?_, fun _ => ?_⟩ <;>
      simp [syncUnsyncedEntries, hnil]
  · have hrun : syncUnsyncedEntries true oracle st = syncLoop oracle st.unsynced st := by
      simp [syncUnsyncedEntries, List.length_eq_zero, hnil]
    refine ⟨?_, ?_, ?_, ?_, fun h => absurd h hnil⟩
    · rw [hrun, syncLoop_count]
      have hsplit := List.length_eq_length_filter_add (l := st.unsynced)
        (syncAttemptFails oracle)
      omega
    · rw [hrun, syncLoop_unsynced]
      refine List.filter_congr ?_
      intro x hx
      by_cases hf : syncAttemptFails oracle x = true
      · rw [hf, decide_eq_true_eq]
        intro hmem
        rcases List.mem_map.1 hmem with ⟨y, hy, hyid⟩
        rcases List.mem_filter.1 hy with ⟨hyl, hys⟩
        have : y = x := List.inj_on_of_nodup_map hids hyl hx hyid
        subst this
        simp [hf] at hys
      · have hf' : syncAttemptFails oracle x = false := by
          simpa using hf
        rw [hf']
        simp only [decide_eq_false_iff_not, not_not]
        exact List.mem_map.2 ⟨x, List.mem_filter.2 ⟨hx, by simp [hf']⟩, rfl⟩
    · rw [hrun, syncLoop_calls_len]
    · simp [syncUnsyncedEntries]

/-- C1 witness: a concrete drain of the two-entry Unsynced Set of `stAB`
against the oracle that rejects exactly the `"Bay"` entry: the call
returns 2 − 1 and leaves exactly the failing entry pending. -/
theorem c1_sync_witness :
    (stAB.unsynced.map (fun e => e.id)).Nodup ∧
      ((syncUnsyncedEntries true mixedOracle stAB).count
          = stAB.unsynced.length
            - (stAB.unsynced.filter (syncAttemptFails mixedOracle)).length
        ∧ (syncUnsyncedEntries true mixedOracle stAB).st.unsynced
            = stAB.unsynced.filter (syncAttemptFails mixedOracle)) ∧
      stAB.unsynced.filter (syncAttemptFails mixedOracle) = [entryB] ∧
      (syncUnsyncedEntries true mixedOracle stAB).count = 1 :=
  ⟨by decide,
    ⟨(c1_sync mixedOracle stAB (by decide)).1, (c1_sync mixedOracle stAB (by decide)).2.1⟩,
    by decide, by decide⟩

/-! ### C10 — deleteEntry never enlarges the Unsynced Set -/

/-- C10: `deleteEntry` never adds anything to the Unsynced Set — after a
successful call the Unsynced Set is the prior set with the identifier
filtered out, and a failed call leaves the state untouched; offline it
returns `true` with no remote call while removing the identifier from both
collections (so a remote-store copy is never deleted later: the sync drain
only ever issues upserts). -/
theorem c10_delete_never_adds (online : Bool) (oracle : RemoteOracle) (id : String)
    (st : LocalState) :
    ((deleteEntry online oracle id st).ok = true →
        (deleteEntry online oracle id st).st.unsynced
          = st.unsynced.filter (fun e => decide (e.id ≠ some id)))
    ∧ ((deleteEntry online oracle id st).ok = false →
        (deleteEntry online oracle id st).st = st)
    ∧ (∀ e ∈ (deleteEntry online oracle id st).st.unsynced, e ∈ st.unsynced)
    ∧ (online = false →
        deleteEntry online oracle id st
          = ⟨true, ⟨st.entries.filter (fun e => decide (e.id ≠ some id)),
                    st.unsynced.filter (fun e => decide (e.id ≠ some id))⟩, []⟩)
    ∧ (∀ c ∈ (syncUnsyncedEntries online oracle st).calls, ∃ r, c = RemoteCall.upsertRow r) := by
  refine ⟨?_, ?_, ?_, ?_, ?_⟩
  · intro hok
    by_cases h1 : (online && !(jsStartsWith id "local-")) = true
    · by_cases h2 : oracle.deleteErr id = true
      · simp [deleteEntry, h1, h2] at hok
      · simp [deleteEntry, h1, h2]
    · simp only [Bool.not_eq_true] at h1
      simp [deleteEntry, h1]
  · intro hok
    by_cases h1 : (online && !(jsStartsWith id "local-")) = true
    · by_cases h2 : oracle.deleteErr id = true
      · simp [deleteEntry, h1, h2]
      · simp [deleteEntry, h1, h2] at hok
    · simp only [Bool.not_eq_true] at h1
      simp [deleteEntry, h1] at hok
  · intro e he
    by_cases h1 : (online && !(jsStartsWith id "local-")) = true
    · by_cases h2 : oracle.deleteErr id = true
      · simp only [deleteEntry, h1, if_true, h2] at he
        exact he
      · simp only [deleteEntry, h1, if_true, h2, if_false, Bool.false_eq_true] at he
        exact (List.mem_filter.1 he).1
    · simp only [deleteEntry, h1, if_false, Bool.false_eq_true] at he
      exact (List.mem_filter.1 he).1
  · intro h
    subst h
    simp [deleteEntry]
  · cases online with
    | false => simp [syncUnsyncedEntries]
    | true =>
      by_cases hnil : st.unsynced.length = 0
      · simp [syncUnsyncedEntries, hnil]
      · have hrun : syncUnsyncedEntries true oracle st = syncLoop oracle st.unsynced st := by
          simp [syncUnsyncedEntries, hnil]
        rw [hrun]
        exact syncLoop_calls_upserts oracle st.unsynced st

/-! ### C9 — CSV validation collects every failing field of every row -/

/-- A string starting with a nonempty string is nonempty. -/
theorem strcat_ne_empty (a b : String) (ha : a ≠ "") : a ++ b ≠ "" := by
  intro h
  apply ha
  have hd := congrArg String.data h
  rw [String.data_append] at hd
  have hnil : ("" : String).data = [] := rfl
  rw [hnil] at hd
  have ha2 : a.data = [] := (List.append_eq_nil.mp hd).1
  rcases a with ⟨d⟩
  cases ha2
  rfl

/-- The utility-type block only ever emits errors for its own field. -/
theorem utErrors_filter_other (row : CSVRow) (i : Nat) (f : String)
    (h : ("utilitytype" == f) = false) :
    (utErrors row i).filter (fun e => e.field == f) = [] := by
  unfold utErrors
  split_ifs <;> simp [h]

/-- The supplier block only ever emits errors for its own field. -/
theorem supErrors_filter_other (row : CSVRow) (i : Nat) (f : String)
    (h : ("supplier" == f) = false) :
    (supErrors row i).filter (fun e => e.field == f) = [] := by
  unfold supErrors
  split_ifs <;> simp [h]

/-- The reading-date block only ever emits errors for its own field. -/
theorem dateErrors_filter_other (P : CSVParsers) (row : CSVRow) (i : Nat) (f : String)
    (h : ("readingdate" == f) = false) :
    (dateErrors P row i).filter (fun e => e.field == f) = [] := by
  unfold dateErrors
  split_ifs <;> simp [h]

/-- The reading block only ever emits errors for its own field. -/
theorem readingErrors_filter_other (P : CSVParsers) (row : CSVRow) (i : Nat) (f : String)
    (h : ("reading" == f) = false) :
    (readingErrors P row i).filter (fun e => e.field == f) = [] := by
  unfold readingErrors
  by_cases hr : getField row "reading" = ""
  · simp [hr]
  · rcases hp : P.parseNum (getField row "reading") with _ | v <;> simp [hr, hp, h]

/-- The amount block only ever emits errors for its own field. -/
theorem amountErrors_filter_other (P : CSVParsers) (row : CSVRow) (i : Nat) (f : String)
    (h : ("amount" == f) = false) :
    (amountErrors P row i).filter (fun e => e.field == f) = [] := by
  unfold amountErrors
  by_cases ha : getField row "amount" = ""
  · simp [ha, h]
  · rcases hp : P.parseNum (getField row "amount") with _ | v
    · simp [ha, hp, h]
    · by_cases hv : v < 0 <;> simp [ha, hp, hv, h]

/-- The utility-type block emits exactly one error when and only when the
utility-type field fails. -/
theorem utErrors_filter_self (row : CSVRow) (i : Nat) :
    ((utErrors row i).filter (fun e => e.field == "utilitytype")).length
      = if utFails row then 1 else 0 := by
  unfold utErrors utFails
  by_cases h1 : getField row "utilitytype" = ""
  · simp [h1]
  · by_cases h2 : getField row "utilitytype" ∈ validUtilityTypes <;>
      simp [h1, h2]

/-- The supplier block emits exactly one error when and only when the
supplier field fails. -/
theorem supErrors_filter_self (row : CSVRow) (i : Nat) :
    ((supErrors row i).filter (fun e => e.field == "supplier")).length
      = if supFails row then 1 else 0 := by
  unfold supErrors supFails
  by_cases h1 : getField row "supplier" = "" <;> simp [h1]

/-- The reading-date block emits exactly one error when and only when the
reading-date field fails. -/
theorem dateErrors_filter_self (P : CSVParsers) (row : CSVRow) (i : Nat) :
    ((dateErrors P row i).filter (fun e => e.field == "readingdate")).length
      = if dateFails P row then 1 else 0 := by
  unfold dateErrors dateFails
  by_cases h1 : getField row "readingdate" = ""
  · simp [h1]
  · by_cases h2 : P.dateOk (getField row "readingdate") = true <;> simp [h1, h2]

/-- The reading block emits exactly one error when and only when the
reading field fails. -/
theorem readingErrors_filter_self (P : CSVParsers) (row : CSVRow) (i : Nat) :
    ((readingErrors P row i).filter (fun e => e.field == "reading")).length
      = if readingFails P row then 1 else 0 := by
  unfold readingErrors readingFails
  by_cases h1 : getField row "reading" = ""
  · simp [h1]
  · rcases hp : P.parseNum (getField row "reading") with _ | v <;> simp [h1, hp]

/-- The amount block emits exactly one error when and only when the amount
field fails. -/
theorem amountErrors_filter_self (P : CSVParsers) (row : CSVRow) (i : Nat) :
    ((amountErrors P row i).filter (fun e => e.field == "amount")).length
      = if amountFails P row then 1 else 0 := by
  unfold amountErrors amountFails
  by_cases h1 : getField row "amount" = ""
  · simp [h1]
  · rcases hp : P.parseNum (getField row "amount") with _ | v
    · simp [h1, hp]
    · by_cases hv : v < 0 <;> simp [h1, hp, hv]

/-- The five CSV field names that can fail validation. -/
def failableFields : List String :=
  ["utilitytype", "supplier", "readingdate", "reading", "amount"]

/-- Every error of the utility-type block is addressable: it carries the
given row index, a failable field name, and a nonempty message. -/
theorem utErrors_mem (row : CSVRow) (i : Nat) :
    ∀ e ∈ utErrors row i,
      e.rowIndex = i ∧ e.field ∈ failableFields ∧ e.message ≠ "" := by
  unfold utErrors
  split_ifs with h1 h2
  · intro e he
    simp only [List.mem_singleton] at he
    subst he
    exact ⟨rfl, by simp [failableFields],
      show ("Utility type is required" : String) ≠ "" by decide⟩
  · intro e he
    simp at he
  · intro e he
    simp only [List.mem_singleton] at he
    subst he
    exact ⟨rfl, by simp [failableFields], strcat_ne_empty _ _ (by decide)⟩

/-- Every error of the supplier block is addressable. -/
theorem supErrors_mem (row : CSVRow) (i : Nat) :
    ∀ e ∈ supErrors row i,
      e.rowIndex = i ∧ e.field ∈ failableFields ∧ e.message ≠ "" := by
  unfold supErrors
  split_ifs with h1
  · intro e he
    simp only [List.mem_singleton] at he
    subst he
    exact ⟨rfl, by simp [failableFields],
      show ("Supplier is required" : String) ≠ "" by decide⟩
  · intro e he
    simp at he

/-- Every error of the reading-date block is addressable. -/
theorem dateErrors_mem (P : CSVParsers) (row : CSVRow) (i : Nat) :
    ∀ e ∈ dateErrors P row i,
      e.rowIndex = i ∧ e.field ∈ failableFields ∧ e.message ≠ "" := by
  unfold dateErrors
  split_ifs with h1 h2
  · intro e he
    simp only [List.mem_singleton] at he
    subst he
    exact ⟨rfl, by simp [failableFields],
      show ("Reading date is required" : String) ≠ "" by decide⟩
  · intro e he
    simp at he
  · intro e he
    simp only [List.mem_singleton] at he
    subst he
    exact ⟨rfl, by simp [failableFields],
      show ("Invalid date format. Use YYYY-MM-DD" : String) ≠ "" by decide⟩

/-- Every error of the reading block is addressable. -/
theorem readingErrors_mem (P : CSVParsers) (row : CSVRow) (i : Nat) :
    ∀ e ∈ readingErrors P row i,
      e.rowIndex = i ∧ e.field ∈ failableFields ∧ e.message ≠ "" := by
  unfold readingErrors
  by_cases hr : getField row "reading" = ""
  · simp [hr]
  · rcases hp : P.parseNum (getField row "reading") with _ | v
    · intro e he
      simp only [if_neg hr, hp, List.mem_singleton] at he
      subst he
      exact ⟨rfl, by simp [failableFields],
        show ("Reading must be a number" : String) ≠ "" by decide⟩
    · intro e he
      simp only [if_neg hr, hp] at he
      simp at he

/-- Every error of the amount block is addressable. -/
theorem amountErrors_mem (P : CSVParsers) (row : CSVRow) (i : Nat) :
    ∀ e ∈ amountErrors P row i,
      e.rowIndex = i ∧ e.field ∈ failableFields ∧ e.message ≠ "" := by
  unfold amountErrors
  by_cases h1 : getField row "amount" = ""
  · intro e he
    simp only [if_pos h1, List.mem_singleton] at he
    subst he
    exact ⟨rfl, by simp [failableFields],
      show ("Amount is required" : String) ≠ "" by decide⟩
  · rcases hp : P.parseNum (getField row "amount") with _ | v
    · intro e he
      simp only [if_neg h1, hp, List.mem_singleton] at he
      subst he
      exact ⟨rfl, by simp [failableFields],
        show ("Amount must be a number" : String) ≠ "" by decide⟩
    · by_cases hv : v < 0
      · intro e he
        simp only [if_neg h1, hp, if_pos hv, List.mem_singleton] at he
        subst he
        exact ⟨rfl, by simp [failableFields],
          show ("Amount must be positive" : String) ≠ "" by decide⟩
      · intro e he
        simp only [if_neg h1, hp, if_neg hv] at he
        simp at he

/-- C9: `validateRow` collects exactly one addressable error per failing
field of a row — one for each of the five checkable fields exactly when
that field fails, each carrying the row's index, a known field name and a
nonempty human message — and `processCSV` (once the headers pass) validates
every row independently, producing one `validateRow` result per row no
matter which rows are invalid. -/
theorem c9_validation (P : CSVParsers) :
    (∀ (row : CSVRow) (i : Nat),
        ((validateRow P row i).errors.filter (fun e => e.field == "utilitytype")).length
            = (if utFails row then 1 else 0)
        ∧ ((validateRow P row i).errors.filter (fun e => e.field == "supplier")).length
            = (if supFails row then 1 else 0)
        ∧ ((validateRow P row i).errors.filter (fun e => e.field == "readingdate")).length
            = (if dateFails P row then 1 else 0)
        ∧ ((validateRow P row i).errors.filter (fun e => e.field == "reading")).length
            = (if readingFails P row then 1 else 0)
        ∧ ((validateRow P row i).errors.filter (fun e => e.field == "amount")).length
            = (if amountFails P row then 1 else 0)
        ∧ (∀ e ∈ (validateRow P row i).errors,
            e.rowIndex = i ∧ e.field ∈ failableFields ∧ e.message ≠ ""))
    ∧ (∀ content headers rows, parseCSV content = Except.ok (headers, rows) →
        validateHeaders headers = [] →
          processCSV P content
              = Except.ok (rows.enum.map (fun p => validateRow P p.2 p.1), [])
          ∧ (rows.enum.map (fun p => validateRow P p.2 p.1)).length = rows.length) := by
  constructor
  · intro row i
    have herr : (validateRow P row i).errors
        = utErrors row i ++ supErrors row i ++ dateErrors P row i
          ++ readingErrors P row i ++ amountErrors P row i := rfl
    refine ⟨?_, ?_, ?_, ?_, ?_, ?_⟩
    · rw [herr]
      simp only [List.filter_append, List.length_append,
        utErrors_filter_self,
        supErrors_filter_other row i "utilitytype" (by decide),
        dateErrors_filter_other P row i "utilitytype" (by decide),
        readingErrors_filter_other P row i "utilitytype" (by decide),
        amountErrors_filter_other P row i "utilitytype" (by decide),
        List.length_nil]
      omega
    · rw [herr]
      simp only [List.filter_append, List.length_append,
        supErrors_filter_self,
        utErrors_filter_other row i "supplier" (by decide),
        dateErrors_filter_other P row i "supplier" (by decide),
        readingErrors_filter_other P row i "supplier" (by decide),
        amountErrors_filter_other P row i "supplier" (by decide),
        List.length_nil]
      omega
    · rw [herr]
      simp only [List.filter_append, List.length_append,
        dateErrors_filter_self,
        utErrors_filter_other row i "readingdate" (by decide),
        supErrors_filter_other row i "readingdate" (by decide),
        readingErrors_filter_other P row i "readingdate" (by decide),
        amountErrors_filter_other P row i "readingdate" (by decide),
        List.length_nil]
      omega
    · rw [herr]
      simp only [List.filter_append, List.length_append,
        readingErrors_filter_self,
        utErrors_filter_other row i "reading" (by decide),
        supErrors_filter_other row i "reading" (by decide),
        dateErrors_filter_other P row i "reading" (by decide),
        amountErrors_filter_other P row i "reading" (by decide),
        List.length_nil]
      omega
    · rw [herr]
      simp only [List.filter_append, List.length_append,
        amountErrors_filter_self,
        utErrors_filter_other row i "amount" (by decide),
        supErrors_filter_other row i "amount" (by decide),
        dateErrors_filter_other P row i "amount" (by decide),
        readingErrors_filter_other P row i "amount" (by decide),
        List.length_nil]
      omega
    · intro e he
      rw [herr] at he
      simp only [List.mem_append] at he
      rcases he with ((((he | he) | he) | he) | he)
      · exact utErrors_mem row i e he
      · exact supErrors_mem row i e he
      · exact dateErrors_mem P row i e he
      · exact readingErrors_mem P row i e he
      · exact amountErrors_mem P row i e he
  · intro content headers rows hparse hval
    constructor
    · simp only [processCSV]
      rw [hparse]
      simp [hval]
    · simp [List.enum_length]

/-- The rational −5, in normal form. -/
def ratNeg5 : Rat := ⟨-5, 1, by decide, by decide⟩

/-- Concrete parsing primitives for the C9 witness. -/
def csvParsersW : CSVParsers :=
  { parseNum := fun s =>
      if s = "42.5" then some amount42p5
      else if s = "-5" then some ratNeg5
      else if s = "7" then some (7 : Rat) else none
    dateOk := fun s => s == "2024-01-15" }

/-- Concrete CSV row for the C9 witness: utility type missing, reading
non-numeric, amount negative; supplier and reading date valid. -/
def rowW : CSVRow :=
  [("utilitytype", ""), ("supplier", "Acme"), ("readingdate", "2024-01-15"),
   ("reading", "x"), ("unit", ""), ("amount", "-5"), ("notes", "")]

/-- Concrete CSV content for the C9 witness, parsing to exactly `[rowW]`. -/
def contentW : String :=
  "utilitytype,supplier,readingdate,reading,unit,amount,notes\n,Acme,2024-01-15,x,,-5,"

/-- C9 witness: on `rowW` the three failing fields each yield exactly one
error while the two passing fields yield none, and `processCSV` on
`contentW` validates its row. -/
theorem c9_validation_witness :
    utFails rowW = true ∧ supFails rowW = false ∧ readingFails csvParsersW rowW = true
    ∧ amountFails csvParsersW rowW = true
    ∧ ((validateRow csvParsersW rowW 3).errors.filter
          (fun e => e.field == "utilitytype")).length = (if utFails rowW then 1 else 0)
    ∧ ((validateRow csvParsersW rowW 3).errors.filter
          (fun e => e.field == "supplier")).length = (if supFails rowW then 1 else 0)
    ∧ ((validateRow csvParsersW rowW 3).errors.filter
          (fun e => e.field == "amount")).length = (if amountFails csvParsersW rowW then 1 else 0)
    ∧ parseCSV contentW = Except.ok (EXPECTED_HEADERS, [rowW])
    ∧ validateHeaders EXPECTED_HEADERS = []
    ∧ processCSV csvParsersW contentW
        = Except.ok (([rowW] : List CSVRow).enum.map
            (fun p => validateRow csvParsersW p.2 p.1), []) :=
  ⟨by decide, by decide, by decide, by decide,
    ((c9_validation csvParsersW).1 rowW 3).1,
    ((c9_validation csvParsersW).1 rowW 3).2.1,
    ((c9_validation csvParsersW).1 rowW 3).2.2.2.2.1,
    by rfl, by decide,
    ((c9_validation csvParsersW).2 contentW EXPECTED_HEADERS [rowW]
        (by rfl) (by decide)).1⟩

/-- C10 witness: concrete deletes of the server identifier `"a1"` — a
successful online delete, a failed online delete, and an offline delete —
plus the upsert-only trace of a concrete sync drain. -/
theorem c10_delete_never_adds_witness :
    ((deleteEntry true echoOracle "a1" stAB).st.unsynced
        = stAB.unsynced.filter (fun e => decide (e.id ≠ some "a1")))
    ∧ ((deleteEntry true failingOracle "a1" stAB).st = stAB)
    ∧ (deleteEntry false echoOracle "a1" stAB
        = ⟨true, ⟨stAB.entries.filter (fun e => decide (e.id ≠ some "a1")),
                  stAB.unsynced.filter (fun e => decide (e.id ≠ some "a1"))⟩, []⟩)
    ∧ (∀ c ∈ (syncUnsyncedEntries true mixedOracle stAB).calls,
        ∃ r, c = RemoteCall.upsertRow r) :=
  ⟨(c10_delete_never_adds true echoOracle "a1" stAB).1 (by decide),
    (c10_delete_never_adds true failingOracle "a1" stAB).2.1 (by decide),
    (c10_delete_never_adds false echoOracle "a1" stAB).2.2.2.1 rfl,
    (c10_delete_never_adds true mixedOracle "a1" stAB).2.2.2.2⟩

/-- C8 witness: offline save of the identifier-carrying `entryA` preserves
its original `createdAt` and refreshes `updatedAt`; online echoed save of
`entryA` does the same; offline save of the identifier-less `entryOld`
restamps `createdAt`. -/
theorem c8_timestamps_witness :
    strFalsy entryA.id = false ∧
      (saveEntry false failingOracle "2024-05-05T00:00:00Z" "2024-05-06T00:00:00Z" 1700
          entryA stAB).ret.updatedAt = some "2024-05-06T00:00:00Z" ∧
      (saveEntry false failingOracle "2024-05-05T00:00:00Z" "2024-05-06T00:00:00Z" 1700
          entryA stAB).ret.createdAt
        = some (jsOr entryA.createdAt "2024-05-05T00:00:00Z") ∧
      (saveEntry true echoOracle "2024-05-05T00:00:00Z" "2024-05-06T00:00:00Z" 1700
          entryA stAB).ret.createdAt
        = some (jsOr entryA.createdAt "2024-05-05T00:00:00Z") ∧
      strFalsy entryOld.id = true ∧
      (saveEntry false failingOracle "2024-05-05T00:00:00Z" "2024-05-06T00:00:00Z" 1700
          entryOld stAB).ret.createdAt = some "2024-05-06T00:00:00Z" ∧
      jsOr entryA.createdAt "2024-05-05T00:00:00Z" = "2024-01-01T00:00:00Z" :=
  ⟨by decide,
    (c8_timestamps failingOracle stAB entryA "2024-05-05T00:00:00Z"
        "2024-05-06T00:00:00Z" 1700).1.1,
    (c8_timestamps failingOracle stAB entryA "2024-05-05T00:00:00Z"
        "2024-05-06T00:00:00Z" 1700).1.2.1 (by decide),
    ((c8_timestamps echoOracle stAB entryA "2024-05-05T00:00:00Z"
        "2024-05-06T00:00:00Z" 1700).2.1 dataA rfl rfl rfl).2,
    by decide,
    (c8_timestamps failingOracle stAB entryOld "2024-05-05T00:00:00Z"
        "2024-05-06T00:00:00Z" 1700).1.2.2 (by decide),
    (c8_timestamps failingOracle stAB entryA "2024-05-05T00:00:00Z"
        "2024-05-06T00:00:00Z" 1700).2.2.2 "2024-01-01T00:00:00Z" rfl (by decide)⟩
